import Mathlib

/-!
Shallow embedding of the SuperMCP server-connection and invocation core
(src/SuperMCP.py, src/server_manager.py) and proofs about it.

Modelling conventions:
* Python dicts keyed by strings are association lists `List (String × _)`;
  Python dict assignment is `dictInsert` (replace the existing binding or
  append a new one).
* Python truthiness on optional strings / lists / booleans is captured by
  `truthyStr`, `truthyList`, `truthyEnabled` (`None`, `""`, `[]` are falsy;
  a missing `enabled` key defaults to true, as in `cfg.get("enabled", True)`).
* Filesystem and subprocess effects (path existence, git clone plus
  dependency install, pip runs) are oracles passed in as a `Disk` record or
  as explicit outcome arguments, so every function is total and executable.
* Python exceptions are `Except.error`; values returned normally (including
  error-shaped dicts such as a tool-not-found payload) are `Except.ok`.
-/

namespace SuperMCP

/-- Normalized value produced by the result normalizer: the structured
content passed through verbatim (type parameter `α`, untouched by
construction), a text string, or a JSON object all of whose values are
strings (used for the sentinel and for error payloads). -/
inductive NormValue (α : Type) where
  | structured (a : α)
  | text (s : String)
  | strObj (fields : List (String × String))
  deriving DecidableEq

/-- One content block of an MCP tool-call result; only its optional `text`
attribute matters to the normalizer (`getattr(block, "text", None)`). -/
structure ContentBlock where
  text : Option String
  deriving DecidableEq

/-- Raw MCP tool-call result: an optional `structuredContent` payload and an
optional list of content blocks (`getattr(result, "content", []) or []`). -/
structure CallToolResult (α : Type) where
  structuredContent : Option α
  content : Option (List ContentBlock)
  deriving DecidableEq

/-- Embedding of `_extract_result_content` (src/SuperMCP.py lines 586-615):
prefer non-null structured content verbatim; else collect the truthy `text`
fields of the content blocks and join them with newlines; else return the
fixed dict with keys `result` and `note`. -/
def extract_result_content {α : Type} (r : CallToolResult α) : NormValue α :=
  match r.structuredContent with
  | some v => .structured v
  | none =>
    let blocks := r.content.getD []
    let texts := blocks.filterMap (fun b =>
      match b.text with
      | some t => if t = "" then none else some t
      | none => none)
    if texts.isEmpty then
      .strObj [("result", "ok"), ("note", "No structured/text content returned.")]
    else
      .text (String.intercalate "\n" texts)

/-- The normalizer exactly as the claim states it: structured content
verbatim; else the `text` fields of all blocks that have one, joined with
newlines and returned when the concatenation is non-empty; else the sentinel
object with keys `status` and `note` and values `ok` and `no content`. -/
def spec_normalize_claim {α : Type} (r : CallToolResult α) : NormValue α :=
  match r.structuredContent with
  | some v => .structured v
  | none =>
    let texts := (r.content.getD []).filterMap (fun b => b.text)
    let joined := String.intercalate "\n" texts
    if joined = "" then .strObj [("status", "ok"), ("note", "no content")]
    else .text joined

/-- Collect, in order, the `text` fields that are present and non-empty. -/
def collect_nonempty_texts : List ContentBlock → List String
  | [] => []
  | b :: bs =>
    match b.text with
    | some t => if t = "" then collect_nonempty_texts bs else t :: collect_nonempty_texts bs
    | none => collect_nonempty_texts bs

/-- The amended normalizer contract: structured content verbatim; else the
non-empty `text` fields joined with newlines, returned when at least one
such text exists; else the fixed dict with keys `result` and `note` that the
code actually builds. -/
def spec_normalize_amended {α : Type} (r : CallToolResult α) : NormValue α :=
  match r.structuredContent with
  | some v => .structured v
  | none =>
    let texts := collect_nonempty_texts (r.content.getD [])
    if 0 < texts.length then .text (String.intercalate "\n" texts)
    else .strObj [("result", "ok"), ("note", "No structured/text content returned.")]

/-- `str.startswith(p)`, implemented structurally so the kernel can
evaluate it on literals. -/
def strStartsWith (s p : String) : Bool := List.isPrefixOf p.data s.data

/-- Python truthiness of an optional string (absent, `None` or `""` are
falsy). -/
def truthyStr : Option String → Bool
  | none => false
  | some s => s != ""

/-- Python truthiness of an optional list (absent, `None` or `[]` are
falsy). -/
def truthyList : Option (List String) → Bool
  | none => false
  | some l => !l.isEmpty

/-- `server_config.get("enabled", True)` as a boolean: defaults to true when
the key is absent. -/
def truthyEnabled : Option Bool → Bool
  | none => true
  | some b => b

/-- One raw configuration entry of `mcp.json` (the fields read by the
core). `type = none` means the key is absent. -/
structure ServerConfig where
  type : Option String
  url : Option String
  command : Option String
  args : Option (List String)
  enabled : Option Bool
  description : Option String
  env : Option (List (String × String))
  deriving DecidableEq

/-- Embedding of `_detect_server_type` (src/SuperMCP.py lines 69-102): an
explicit `type` key wins verbatim; else command and args present means
stdio; else only a url means sse; else default to stdio. -/
def detect_server_type (cfg : ServerConfig) : String :=
  match cfg.type with
  | some t => t
  | none =>
    if truthyStr cfg.command && truthyList cfg.args then "stdio"
    else if truthyStr cfg.url && !(truthyStr cfg.command || truthyList cfg.args) then "sse"
    else "stdio"

/-- Transport-kind detection exactly as the claim words it: explicit type
wins unconditionally; both non-empty command and args give stdio; only a
non-empty url, with neither command nor args, gives sse; every other
combination defaults to stdio. -/
def spec_detect_type (cfg : ServerConfig) : String :=
  match cfg.type with
  | some t => t
  | none =>
    if truthyStr cfg.command = true ∧ truthyList cfg.args = true then "stdio"
    else if truthyStr cfg.url = true ∧ truthyStr cfg.command = false ∧ truthyList cfg.args = false then "sse"
    else "stdio"

/-- The persisted `mcp.json` document as seen by `_load_mcp_config`:
missing file, malformed JSON, or a parsed document whose `mcpServers` key
may be absent. -/
inductive RawDoc where
  | missing
  | invalid
  | valid (servers : Option (List (String × ServerConfig)))
  deriving DecidableEq

/-- Embedding of `_load_mcp_config` (src/SuperMCP.py lines 104-142): a
missing file yields (and persists) an empty configuration, malformed JSON is
caught and replaced by an empty configuration, a document without the
`mcpServers` key gets an empty map; no case raises. -/
def load_mcp_config : RawDoc → List (String × ServerConfig)
  | .missing => []
  | .invalid => []
  | .valid none => []
  | .valid (some servers) => servers

/-- The directory containing the SuperMCP source file (`HERE` in the
source); an abstract absolute path constant. -/
def HERE : String := "/opt/supermcp"

/-- `Path(p).is_absolute()` for POSIX paths. -/
def pathIsAbsolute (p : String) : Bool := strStartsWith p "/"

/-- Embedding of `_resolve_path` (src/SuperMCP.py lines 144-161): absolute
paths pass through; relative paths are joined onto `HERE`. -/
def resolve_path (p : String) : String :=
  if pathIsAbsolute p then p else HERE ++ "/" ++ p

/-- Header naming convention of `_create_sse_headers`: uppercase, underscores
to hyphens, `X-MCP-` prefixed. -/
def header_name (k : String) : String := "X-MCP-" ++ (k.toUpper.replace "_" "-")

/-- Embedding of `_create_sse_headers` (src/SuperMCP.py lines 163-185). -/
def create_sse_headers : Option (List (String × String)) → List (String × String)
  | none => []
  | some l => l.map (fun kv => (header_name kv.1, kv.2))

/-- Filesystem / provisioning oracle: whether a resolved path exists on
disk, whether the git target directory for a named server already exists,
whether cloning plus dependency installation for it succeeds, and the
exception text when it fails. -/
structure Disk where
  pathExists : String → Bool
  gitTargetExists : String → Bool
  cloneInstallOk : String → Bool
  cloneErrMsg : String → String

/-- One entry of the in-memory `REGISTRY`, with the exact fields the scan
stores. -/
structure RegEntry where
  type : String
  command : Option String
  args : Option (List String)
  url : Option String
  path : Option String
  description : Option String
  enabled : Bool
  env : Option (List (String × String))
  deriving DecidableEq

/-- The registry record built for a validated sse entry (src/SuperMCP.py
lines 249-258). -/
def sse_entry (cfg : ServerConfig) : RegEntry :=
  { type := "sse", command := none, args := none, url := cfg.url, path := none,
    description := cfg.description, enabled := true, env := cfg.env }

/-- The registry record built for a validated stdio entry (src/SuperMCP.py
lines 328-336), with its resolved entry-point path. -/
def stdio_entry (cfg : ServerConfig) (entry_path : String) : RegEntry :=
  { type := "stdio", command := cfg.command, args := cfg.args, url := cfg.url,
    path := some entry_path, description := cfg.description, enabled := true, env := none }

/-- `args[0] if args else None`, then the truthiness test `if entry_point:`
on the first element. -/
def entry_point_of : Option (List String) → Option String
  | some (a :: _) => if a = "" then none else some a
  | _ => none

/-- Python dict assignment `d[k] = v` on an association list: replace the
existing binding for `k` or append a new one. -/
def dictInsert {β : Type} (name : String) (v : β) : List (String × β) → List (String × β)
  | [] => [(name, v)]
  | (k, w) :: rest => if k = name then (k, v) :: rest else (k, w) :: dictInsert name v rest

/-- Result of a registry scan: the rebuilt registry and the three counters
the scan logs. -/
structure ScanResult where
  registry : List (String × RegEntry)
  found : Nat
  skipped : Nat
  errors : Nat
  deriving DecidableEq

/-- One iteration of the `_scan_available` loop (src/SuperMCP.py lines
226-343) over a named configuration entry: skip disabled entries, detect the
type, validate required fields, provision git-based stdio servers (clone
attempted only when the target directory is absent; a clone or install
failure rejects the entry), resolve and check the entry point, and insert
the validated record. The entry-point check, written twice verbatim in the
source for the git and local sub-branches, appears here once after the
provisioning step. -/
def process_entry (disk : Disk) (acc : ScanResult) (p : String × ServerConfig) : ScanResult :=
  let name := p.1
  let cfg := p.2
  if !truthyEnabled cfg.enabled then
    { acc with skipped := acc.skipped + 1 }
  else
    let server_type := detect_server_type cfg
    if server_type = "sse" then
      if !truthyStr cfg.url then { acc with errors := acc.errors + 1 }
      else { acc with registry := dictInsert name (sse_entry cfg) acc.registry,
                      found := acc.found + 1 }
    else if server_type = "stdio" then
      if !truthyStr cfg.command then { acc with errors := acc.errors + 1 }
      else if !truthyList cfg.args then { acc with errors := acc.errors + 1 }
      else if truthyStr cfg.url && !disk.gitTargetExists name && !disk.cloneInstallOk name then
        { acc with errors := acc.errors + 1 }
      else
        match entry_point_of cfg.args with
        | none => { acc with errors := acc.errors + 1 }
        | some a =>
          if !disk.pathExists (resolve_path a) then { acc with errors := acc.errors + 1 }
          else { acc with registry := dictInsert name (stdio_entry cfg (resolve_path a)) acc.registry,
                          found := acc.found + 1 }
    else { acc with errors := acc.errors + 1 }

/-- Embedding of `_scan_available` (src/SuperMCP.py lines 201-351): clear
the registry and process every configuration entry in order. -/
def scan_available (disk : Disk) (servers : List (String × ServerConfig)) : ScanResult :=
  servers.foldl (process_entry disk) ⟨[], 0, 0, 0⟩

/-- What one scan iteration contributes to the registry for a given named
entry: the record it inserts, or `none` when the entry is skipped or
rejected. -/
def entry_result (disk : Disk) (name : String) (cfg : ServerConfig) : Option RegEntry :=
  if !truthyEnabled cfg.enabled then none
  else if detect_server_type cfg = "sse" then
    if !truthyStr cfg.url then none else some (sse_entry cfg)
  else if detect_server_type cfg = "stdio" then
    if !truthyStr cfg.command then none
    else if !truthyList cfg.args then none
    else if truthyStr cfg.url && !disk.gitTargetExists name && !disk.cloneInstallOk name then none
    else
      match entry_point_of cfg.args with
      | none => none
      | some a =>
        if !disk.pathExists (resolve_path a) then none
        else some (stdio_entry cfg (resolve_path a))
  else none

/-- Return value of the `reload_servers` operation. -/
structure ReloadResult where
  ok : Bool
  count : Nat
  deriving DecidableEq

/-- Embedding of `reload_servers` (src/SuperMCP.py lines 637-644): rebuild
the registry from the persisted document and report the entry count. -/
def reload_servers (disk : Disk) (doc : RawDoc) : ScanResult × ReloadResult :=
  let scan := scan_available disk (load_mcp_config doc)
  (scan, ⟨true, scan.registry.length⟩)

/-- Observable behaviour of a remote MCP server during one session: the tool
names its tools-list request returns, and the raw result object a tool call
produces. -/
structure ServerBehavior (α : Type) where
  tools : List String
  callResult : String → CallToolResult α

/-- Python `str(list_of_strings)` for simple names, as interpolated into the
tool-not-found message. -/
def py_str_list_repr (names : List String) : String :=
  "[" ++ String.intercalate ", " (names.map (fun n => "\x27" ++ n ++ "\x27")) ++ "]"

/-- The f-string `Tool {tool} not found. Available: {names}` built by
`_call_tool_once`, carrying the full list of available tool names. -/
def tool_not_found_msg (tool : String) (names : List String) : String :=
  "Tool \x27" ++ tool ++ "\x27 not found. Available: " ++ py_str_list_repr names

/-- An error-shaped dict returned as an ordinary value. -/
def err_obj {α : Type} (msg : String) : NormValue α := .strObj [("error", msg)]

/-- Embedding of `_call_tool_once` (src/SuperMCP.py lines 480-584).
Missing transport fields raise (`Except.error`); a tool name absent from
the discovered tools-list is returned as an error-shaped value, not raised;
otherwise the raw result is normalized by `extract_result_content`. The sse
path degrades when headers are required or the sse client is unavailable. -/
def call_tool_once {α : Type} (sse_available : Bool) (cfg : RegEntry)
    (beh : ServerBehavior α) (tool_name : String) : Except String (NormValue α) :=
  if cfg.type = "sse" then
    if !truthyStr cfg.url then .error "SSE server missing URL"
    else if sse_available then
      if !(create_sse_headers cfg.env).isEmpty then
        .ok (err_obj "SSE servers with environment variables require custom implementation. Headers are prepared but MCP SSE client needs enhancement for header support.")
      else if tool_name ∈ beh.tools then .ok (extract_result_content (beh.callResult tool_name))
      else .ok (err_obj (tool_not_found_msg tool_name beh.tools))
    else .ok (err_obj "SSE client not available. Please install MCP SDK with SSE support or use httpx.")
  else
    if !(truthyStr cfg.command && truthyList cfg.args) then
      .error "Stdio server missing command or args"
    else if tool_name ∈ beh.tools then .ok (extract_result_content (beh.callResult tool_name))
    else .ok (err_obj (tool_not_found_msg tool_name beh.tools))

/-- Embedding of `call_server_tool` (src/SuperMCP.py lines 682-693): resolve
the server name in the registry, then delegate to `call_tool_once`. -/
def call_server_tool {α : Type} (sse_available : Bool) (registry : List (String × RegEntry))
    (name : String) (beh : ServerBehavior α) (tool_name : String) : Except String (NormValue α) :=
  match List.lookup name registry with
  | none => .ok (err_obj ("\x27" ++ name ++ "\x27 not found. Try \x27reload_servers\x27 then \x27list_servers\x27."))
  | some cfg => call_tool_once sse_available cfg beh tool_name

/-- Whether an invocation against this registry entry reaches the
tools-list discovery step: stdio needs command and args; sse needs a url,
an available sse client and no header variables. -/
def discovery_reachable (sse_available : Bool) (cfg : RegEntry) : Bool :=
  if cfg.type = "sse" then
    truthyStr cfg.url && sse_available && (create_sse_headers cfg.env).isEmpty
  else
    truthyStr cfg.command && truthyList cfg.args

/-- The two files `_save_mcp_config` touches: the persisted document and its
sibling temp file. Each holds a complete document or nothing; a partially
written temp file is represented by the exception handler having removed
it, and partial content can never reach `config` because only a whole-file
rename writes it. -/
structure FileState where
  config : Option (List (String × ServerConfig))
  temp : Option (List (String × ServerConfig))
  deriving DecidableEq

/-- Where a save attempt can raise: while writing the temp file or while
renaming it over the original. -/
inductive SaveStep where
  | writeTemp
  | rename
  deriving DecidableEq

/-- Writing the whole document to the sibling temp file. -/
def write_temp_file (fs : FileState) (doc : List (String × ServerConfig)) : FileState :=
  { fs with temp := some doc }

/-- `temp_path.replace(MCP_CONFIG_PATH)`: atomically move the temp file over
the original. -/
def rename_temp_over (fs : FileState) : FileState :=
  match fs.temp with
  | some d => { config := some d, temp := none }
  | none => fs

/-- The exception handler's cleanup: unlink the temp file if present. -/
def remove_temp_file (fs : FileState) : FileState := { fs with temp := none }

/-- Embedding of `_save_mcp_config` (src/SuperMCP.py lines 695-724): write
the whole document to a sibling temp file, rename it over the original and
return true; on an exception at either step, remove the temp file and
return false. -/
def save_mcp_config (fs : FileState) (doc : List (String × ServerConfig))
    (failAt : Option SaveStep) : FileState × Bool :=
  match failAt with
  | none => (rename_temp_over (write_temp_file fs doc), true)
  | some .writeTemp => (remove_temp_file fs, false)
  | some .rename => (remove_temp_file (write_temp_file fs doc), false)

/-- Arguments of the `add_server` operation. -/
structure AddParams where
  name : String
  server_type : String
  url : Option String
  command : Option String
  args : Option (List String)
  description : Option String
  env : Option (List (String × String))
  deriving DecidableEq

/-- Return value of `add_server`: an error payload or the persisted entry. -/
inductive AddResult where
  | failure (msg : String)
  | success (entry : ServerConfig)
  deriving DecidableEq

/-- The mutable state `add_server` works on: the persisted document and the
in-memory registry. -/
structure AddState where
  doc : RawDoc
  registry : List (String × RegEntry)
  deriving DecidableEq

/-- Tail of `add_server`: insert the entry into the loaded server map, save
it (an unsuccessful `_save_mcp_config` reports failure and leaves both the
document and the registry untouched), then rebuild the registry from the
saved document. -/
def finish_add (disk : Disk) (save_fail : Bool) (st : AddState)
    (servers : List (String × ServerConfig)) (name : String) (entry : ServerConfig) :
    AddResult × AddState :=
  let servers2 := dictInsert name entry servers
  if save_fail then (.failure "Failed to save mcp.json", st)
  else
    let doc2 := RawDoc.valid (some servers2)
    (.success entry, ⟨doc2, (scan_available disk (load_mcp_config doc2)).registry⟩)

/-- Embedding of `add_server` (src/SuperMCP.py lines 726-850): duplicate
checks against the registry and the loaded document, type validation, the
sse url-scheme check, stdio command/args checks, git provisioning and
entry-point validation, then persist and rescan. The sse connection test
only warns and never gates, so it is omitted. -/
def add_server (disk : Disk) (save_fail : Bool) (st : AddState) (p : AddParams) :
    AddResult × AddState :=
  if (List.lookup p.name st.registry).isSome then
    (.failure ("Server \x27" ++ p.name ++ "\x27 already exists"), st)
  else if !(p.server_type = "sse" || p.server_type = "stdio") then
    (.failure ("Invalid server_type \x27" ++ p.server_type ++ "\x27. Must be \x27sse\x27 or \x27stdio\x27"), st)
  else
    let servers := load_mcp_config st.doc
    if (List.lookup p.name servers).isSome then
      (.failure ("Server \x27" ++ p.name ++ "\x27 already exists in mcp.json"), st)
    else if p.server_type = "sse" then
      match p.url with
      | none => (.failure "SSE servers require \x27url\x27 parameter", st)
      | some u =>
        if u = "" then (.failure "SSE servers require \x27url\x27 parameter", st)
        else if !(strStartsWith u "http://" || strStartsWith u "https://") then
          (.failure ("Invalid URL format: " ++ u ++ ". Must start with http:// or https://"), st)
        else
          let entry : ServerConfig :=
            { type := some "sse", url := some u, command := none, args := none,
              enabled := some true, description := p.description,
              env := match p.env with
                     | some l => if l.isEmpty then none else some l
                     | none => none }
          finish_add disk save_fail st servers p.name entry
    else
      if !truthyStr p.command then (.failure "Stdio servers require \x27command\x27 parameter", st)
      else if !truthyList p.args then (.failure "Stdio servers require \x27args\x27 parameter", st)
      else
        let entry : ServerConfig :=
          { type := some "stdio", url := if truthyStr p.url then p.url else none,
            command := p.command, args := p.args,
            enabled := some true, description := p.description, env := none }
        if truthyStr p.url then
          if !disk.cloneInstallOk p.name then
            (.failure ("Failed to clone Git repository: " ++ disk.cloneErrMsg p.name), st)
          else
            match entry_point_of p.args with
            | some a =>
              if !disk.pathExists (resolve_path a) then
                (.failure ("Entry point not found: " ++ resolve_path a), st)
              else finish_add disk save_fail st servers p.name entry
            | none => finish_add disk save_fail st servers p.name entry
        else
          match entry_point_of p.args with
          | some a =>
            if !disk.pathExists (resolve_path a) then
              (.failure ("Entry point not found: " ++ resolve_path a), st)
            else finish_add disk save_fail st servers p.name entry
          | none => finish_add disk save_fail st servers p.name entry

/-- Outcome of one `pip install` subprocess run. -/
inductive PipOutcome where
  | ok
  | processError (err : String)
  | timeout
  deriving DecidableEq

/-- Which installer invocation `install_dependencies` issued. -/
inductive PipInvocation where
  | requirements
  | editable
  deriving DecidableEq

/-- The result dict of `install_dependencies`. -/
structure InstallResult where
  success : Bool
  method : Option String
  message : String
  deriving DecidableEq

/-- The result the requirements.txt branch produces for each pip outcome. -/
def req_install_result : PipOutcome → InstallResult
  | .ok => ⟨true, some "requirements.txt", "Dependencies installed from requirements.txt"⟩
  | .processError e => ⟨false, none, "Failed to install from requirements.txt: " ++ e⟩
  | .timeout => ⟨false, none, "Dependency installation timed out after 10 minutes"⟩

/-- The result the pyproject.toml branch produces for each pip outcome. -/
def py_install_result : PipOutcome → InstallResult
  | .ok => ⟨true, some "pyproject.toml", "Dependencies installed from pyproject.toml"⟩
  | .processError e => ⟨false, none, "Failed to install from pyproject.toml: " ++ e⟩
  | .timeout => ⟨false, none, "Dependency installation timed out after 10 minutes"⟩

/-- Embedding of `install_dependencies` (src/server_manager.py lines
152-247), instrumented with the list of installer invocations it issues.
When requirements.txt exists, `pip install -r` is run and every outcome
(success, process error, timeout) returns immediately; only otherwise is
pyproject.toml checked and `pip install -e` run; with neither file the call
is a no-op success. -/
def install_dependencies (has_requirements has_pyproject : Bool)
    (req_outcome py_outcome : PipOutcome) : InstallResult × List PipInvocation :=
  if has_requirements then
    (match req_outcome with
     | .ok => ⟨true, some "requirements.txt", "Dependencies installed from requirements.txt"⟩
     | .processError e => ⟨false, none, "Failed to install from requirements.txt: " ++ e⟩
     | .timeout => ⟨false, none, "Dependency installation timed out after 10 minutes"⟩,
     [.requirements])
  else if has_pyproject then
    (match py_outcome with
     | .ok => ⟨true, some "pyproject.toml", "Dependencies installed from pyproject.toml"⟩
     | .processError e => ⟨false, none, "Failed to install from pyproject.toml: " ++ e⟩
     | .timeout => ⟨false, none, "Dependency installation timed out after 10 minutes"⟩,
     [.editable])
  else
    (⟨true, none, "No requirements.txt or pyproject.toml found, skipping dependency installation"⟩, [])

/-- Child-process lifecycle events of the stdio transport. -/
inductive ProcEvent where
  | spawn (s : String)
  | stop (s : String)
  deriving DecidableEq

/-- The process events of one stdio tool call: `async with
stdio_client(params)` spawns the child on entry and tears it down on exit,
so each call is bracketed by a spawn and a stop of its server. -/
def call_events (s : String) : List ProcEvent := [.spawn s, .stop s]

/-- The event trace of a sequence of stdio tool calls executed one after
another (the runtime processes one caller request at a time). -/
def stdio_trace : List String → List ProcEvent
  | [] => []
  | s :: rest => call_events s ++ stdio_trace rest

/-- Effect of one process event on the list of live child processes. -/
def step_proc (alive : List String) : ProcEvent → List String
  | .spawn s => alive ++ [s]
  | .stop s => alive.erase s

/-- The live child processes after a list of events, starting from none. -/
def alive_after (events : List ProcEvent) : List String :=
  events.foldl step_proc []

/-- Concrete oracle: nothing exists on disk and every provisioning attempt
fails. -/
def disk_demo : Disk := ⟨fun _ => false, fun _ => false, fun _ => false, fun _ => ""⟩

/-- A stream entry whose url is not an http(s) url, as in the spec
scenario. -/
def cfg_bad_url : ServerConfig :=
  { type := none, url := some "not-a-url", command := none, args := none,
    enabled := none, description := none, env := none }

/-- A disabled configuration entry. -/
def cfg_disabled : ServerConfig :=
  { type := none, url := none, command := some "python", args := some ["x.py"],
    enabled := some false, description := none, env := none }

/-- A local stdio entry whose entry point will not exist on `disk_demo`. -/
def cfg_stdio_missing : ServerConfig :=
  { type := none, url := none, command := some "python", args := some ["server.py"],
    enabled := none, description := none, env := none }

/-- A registered stdio server record used in witnesses. -/
def reg_entry_demo : RegEntry :=
  { type := "stdio", command := some "python", args := some ["server.py"],
    url := none, path := some "/opt/supermcp/server.py", description := none,
    enabled := true, env := none }

/-- A server behaviour exposing a single tool named `ping`. -/
def beh_demo : ServerBehavior Nat := ⟨["ping"], fun _ => ⟨none, none⟩⟩

/-- Parameters adding an sse server with a malformed url. -/
def add_params_bad : AddParams :=
  ⟨"newsrv", "sse", some "not-a-url", none, none, none, none⟩

/-- An empty persisted document and an empty registry. -/
def add_state_empty : AddState := ⟨RawDoc.valid (some []), []⟩

/-- A file state holding an empty persisted document and no temp file. -/
def fs_demo : FileState := ⟨some [], none⟩

/-- A one-entry document to be saved. -/
def doc_demo : List (String × ServerConfig) := [("srv", cfg_stdio_missing)]

/-- Collecting the non-empty texts is the filterMap the extractor uses. -/
lemma collect_nonempty_texts_eq (bs : List ContentBlock) :
    collect_nonempty_texts bs = bs.filterMap (fun b =>
      match b.text with
      | some t => if t = "" then none else some t
      | none => none) := by
  induction bs with
  | nil => rfl
  | cons b bs ih =>
    cases hb : b.text with
    | none => simp [collect_nonempty_texts, hb, ih]
    | some t =>
      by_cases ht : t = "" <;> simp [collect_nonempty_texts, hb, ht, ih]

/-- Looking up the key just inserted. -/
lemma lookup_dictInsert_self {β : Type} (name : String) (v : β) (l : List (String × β)) :
    List.lookup name (dictInsert name v l) = some v := by
  induction l with
  | nil => simp [dictInsert, List.lookup]
  | cons kw rest ih =>
    obtain ⟨k, w⟩ := kw
    by_cases hk : k = name
    · subst hk
      simp [dictInsert, List.lookup]
    · have hb : (name == k) = false := beq_eq_false_iff_ne.mpr (fun he => hk he.symm)
      simp [dictInsert, hk, List.lookup, hb, ih]

/-- Inserting a different key does not change a lookup. -/
lemma lookup_dictInsert_ne {β : Type} {m name : String} {v : β} {l : List (String × β)}
    (h : m ≠ name) : List.lookup m (dictInsert name v l) = List.lookup m l := by
  have hb : (m == name) = false := beq_eq_false_iff_ne.mpr h
  induction l with
  | nil => simp [dictInsert, List.lookup, hb]
  | cons kw rest ih =>
    obtain ⟨k, w⟩ := kw
    by_cases hk : k = name
    · subst hk
      simp [dictInsert, List.lookup, hb]
    · simp [dictInsert, hk, List.lookup, ih]

/-- A scan iteration changes the registry exactly by what `entry_result`
says it inserts. -/
lemma process_entry_registry (disk : Disk) (acc : ScanResult) (name : String)
    (cfg : ServerConfig) :
    (process_entry disk acc (name, cfg)).registry =
      match entry_result disk name cfg with
      | some e => dictInsert name e acc.registry
      | none => acc.registry := by
  unfold process_entry entry_result
  cases h1 : truthyEnabled cfg.enabled with
  | false => simp [h1]
  | true =>
    by_cases h2 : detect_server_type cfg = "sse"
    · cases h3 : truthyStr cfg.url <;> simp [h1, h2, h3]
    · by_cases h4 : detect_server_type cfg = "stdio"
      · cases h5 : truthyStr cfg.command with
        | false => simp [h1, h2, h4, h5]
        | true =>
          cases h6 : truthyList cfg.args with
          | false => simp [h1, h2, h4, h5, h6]
          | true =>
            cases hg1 : disk.gitTargetExists name <;>
            cases hg2 : disk.cloneInstallOk name <;>
            cases h3 : truthyStr cfg.url <;>
            first
            | (simp [h1, h2, h4, h5, h6, h3, hg1, hg2]; done)
            | (cases hep : entry_point_of cfg.args with
               | none => simp [h1, h2, h4, h5, h6, h3, hg1, hg2, hep]
               | some a =>
                 cases h8 : disk.pathExists (resolve_path a) <;>
                   simp [h1, h2, h4, h5, h6, h3, hg1, hg2, hep, h8])
      · simp [h1, h2, h4]

/-- A disabled entry only bumps the skipped counter. -/
lemma process_entry_disabled {disk : Disk} {acc : ScanResult} {name : String}
    {cfg : ServerConfig} (h : cfg.enabled = some false) :
    process_entry disk acc (name, cfg) = { acc with skipped := acc.skipped + 1 } := by
  unfold process_entry
  simp [truthyEnabled, h]

/-- Folding the scan over entries none of which carry a given name leaves
that name's registry binding unchanged. -/
lemma lookup_fold_not_mem (disk : Disk) :
    ∀ (rest : List (String × ServerConfig)) (acc : ScanResult) (name : String),
      (∀ c, (name, c) ∉ rest) →
      List.lookup name (List.foldl (process_entry disk) acc rest).registry =
        List.lookup name acc.registry := by
  intro rest
  induction rest with
  | nil => intro acc name _; rfl
  | cons p rest ih =>
    intro acc name h
    obtain ⟨k, c⟩ := p
    have hk : name ≠ k := by
      intro he
      subst he
      exact h c (List.mem_cons_self _ _)
    rw [List.foldl_cons]
    rw [ih _ name (fun c' hc' => h c' (List.mem_cons_of_mem _ hc'))]
    rw [process_entry_registry]
    rcases he : entry_result disk k c with _ | e
    · rfl
    · exact lookup_dictInsert_ne hk

/-- Looking up a configured name in a rebuilt registry, assuming the
configuration document has no duplicate keys (Python dicts cannot), yields
exactly this entry's `entry_result`. -/
lemma lookup_scan_fold (disk : Disk) :
    ∀ (servers : List (String × ServerConfig)) (acc : ScanResult) (name : String)
      (cfg : ServerConfig),
      (servers.map Prod.fst).Nodup →
      (name, cfg) ∈ servers →
      List.lookup name acc.registry = none →
      List.lookup name (List.foldl (process_entry disk) acc servers).registry =
        entry_result disk name cfg := by
  intro servers
  induction servers with
  | nil =>
    intro acc name cfg _ hmem
    exact absurd hmem (List.not_mem_nil _)
  | cons p rest ih =>
    intro acc name cfg hnd hmem hacc
    obtain ⟨k, c⟩ := p
    rw [List.map_cons, List.nodup_cons] at hnd
    obtain ⟨hknot, hndrest⟩ := hnd
    rw [List.foldl_cons]
    rcases List.mem_cons.mp hmem with heq | hmem'
    · injection heq with h1 h2
      subst h1
      subst h2
      have hnotrest : ∀ c', (name, c') ∉ rest := by
        intro c' hc'
        exact hknot (List.mem_map.mpr ⟨(name, c'), hc', rfl⟩)
      rw [lookup_fold_not_mem disk rest _ name hnotrest]
      rw [process_entry_registry]
      rcases he : entry_result disk name cfg with _ | e
      · exact hacc
      · exact lookup_dictInsert_self name e acc.registry
    · have hk : name ≠ k := by
        intro he
        subst he
        exact hknot (List.mem_map.mpr ⟨(name, cfg), hmem', rfl⟩)
      apply ih _ name cfg hndrest hmem'
      rw [process_entry_registry]
      rcases he : entry_result disk k c with _ | e
      · exact hacc
      · rw [lookup_dictInsert_ne hk]
        exact hacc

/-- Looking up a configured name after a full rebuild. -/
lemma lookup_scan_available {disk : Disk} {servers : List (String × ServerConfig)}
    {name : String} {cfg : ServerConfig}
    (hnd : (servers.map Prod.fst).Nodup) (hmem : (name, cfg) ∈ servers) :
    List.lookup name (scan_available disk servers).registry = entry_result disk name cfg :=
  lookup_scan_fold disk servers ⟨[], 0, 0, 0⟩ name cfg hnd hmem rfl

/-- Spawn-stop bracketing of one call cancels out in the live-process
fold. -/
lemma alive_after_block (s : String) (rest : List ProcEvent) :
    alive_after (ProcEvent.spawn s :: ProcEvent.stop s :: rest) = alive_after rest := by
  unfold alive_after
  simp [step_proc, List.erase_cons_head]

/-- Along any prefix of a trace of sequential one-shot stdio calls, at most
one child process is alive. -/
lemma alive_prefix_bound :
    ∀ (calls : List String) (pre t : List ProcEvent),
      pre ++ t = stdio_trace calls → (alive_after pre).length ≤ 1 := by
  intro calls
  induction calls with
  | nil =>
    intro pre t h
    have hpre : pre = [] := by
      cases pre with
      | nil => rfl
      | cons e es => simp [stdio_trace] at h
    subst hpre
    simp [alive_after]
  | cons s rest ih =>
    intro pre t h
    cases pre with
    | nil => simp [alive_after]
    | cons e1 pre1 =>
      simp only [stdio_trace, call_events, List.cons_append, List.nil_append,
        List.cons.injEq] at h
      obtain ⟨he1, h1⟩ := h
      subst he1
      cases pre1 with
      | nil => simp [alive_after, step_proc]
      | cons e2 pre2 =>
        simp only [List.cons_append, List.cons.injEq] at h1
        obtain ⟨he2, h2⟩ := h1
        subst he2
        rw [alive_after_block]
        exact ih pre2 t h2

/-- Claim C1, counterexample: at the result with no structured content and
two content blocks whose `text` fields are the empty string, the code
returns its sentinel dict with keys `result` and `note`, while the claimed
precedence (join the text fields of all blocks that have one, return the
concatenation when non-empty, else the sentinel with keys `status` and
`note`) would return the text `"\n"`; so the claim as stated is false. -/
theorem c1_counterexample :
    extract_result_content (⟨none, some [⟨some ""⟩, ⟨some ""⟩]⟩ : CallToolResult Nat) ≠
      spec_normalize_claim (⟨none, some [⟨some ""⟩, ⟨some ""⟩]⟩ : CallToolResult Nat) := by
  decide

/-- Claim C1, amended: the normalizer applies exactly this precedence:
non-null structured content is returned verbatim; otherwise the `text`
fields that are present and non-empty are concatenated joined with newlines
and returned when at least one such text exists; otherwise the fixed
sentinel dict with keys `result` and `note` and values `ok` and
`No structured/text content returned.` is returned. -/
theorem c1_amended {α : Type} (r : CallToolResult α) :
    extract_result_content r = spec_normalize_amended r := by
  unfold extract_result_content spec_normalize_amended
  cases hs : r.structuredContent with
  | some v => rfl
  | none =>
    simp only [collect_nonempty_texts_eq]
    cases hl : (r.content.getD []).filterMap (fun b =>
      match b.text with
      | some t => if t = "" then none else some t
      | none => none) <;>
      simp [hl]

/-- Claim C2: modelling each stdio tool call of `_call_tool_once` as the
spawn/stop bracket of its `async with stdio_client` block, executed
sequentially: along every prefix of the event trace of any call sequence at
most one child process is alive, and after invoking against server A and
then against server B no process is alive, in particular not the one
spawned for A. -/
theorem c2 (calls : List String) :
    (∀ pre t, pre ++ t = stdio_trace calls → (alive_after pre).length ≤ 1) ∧
    (∀ A B : String, alive_after (stdio_trace [A, B]) = []) := by
  refine ⟨alive_prefix_bound calls, ?_⟩
  intro A B
  show alive_after
    (ProcEvent.spawn A :: ProcEvent.stop A ::
      (ProcEvent.spawn B :: ProcEvent.stop B :: [])) = []
  rw [alive_after_block, alive_after_block]
  rfl

/-- Witness for claim C2 at a concrete prefix of the two-call trace. -/
theorem c2_witness :
    (alive_after [ProcEvent.spawn "A"]).length ≤ 1 ∧
    alive_after (stdio_trace ["A", "B"]) = [] :=
  ⟨(c2 ["A", "B"]).1 [ProcEvent.spawn "A"]
      [ProcEvent.stop "A", ProcEvent.spawn "B", ProcEvent.stop "B"] rfl,
    (c2 ["A", "B"]).2 "A" "B"⟩

/-- Claim C3, counterexample: the registry rebuild inserts the sse entry
whose url is `not-a-url` (it only checks that a url is present and
non-empty), so the claim that such entries are rejected during rebuild is
false. -/
theorem c3_counterexample :
    List.lookup "bad" (scan_available disk_demo [("bad", cfg_bad_url)]).registry =
      some (sse_entry cfg_bad_url) := by
  decide

/-- Claim C3, amended: the url-scheme validation happens in the add-server
operation, not during rebuild: `add_server` rejects an sse entry whose url
does not start with `http://` or `https://` with a descriptive reason and
leaves both the document and the registry untouched; the rebuild itself
inserts every enabled sse-detected entry with a non-empty url, whatever its
scheme. -/
theorem c3_amended :
    (∀ (disk : Disk) (save_fail : Bool) (st : AddState) (p : AddParams) (u : String),
      List.lookup p.name st.registry = none →
      List.lookup p.name (load_mcp_config st.doc) = none →
      p.server_type = "sse" →
      p.url = some u →
      u ≠ "" →
      strStartsWith u "http://" = false →
      strStartsWith u "https://" = false →
      add_server disk save_fail st p =
        (.failure ("Invalid URL format: " ++ u ++ ". Must start with http:// or https://"), st)) ∧
    (∀ (disk : Disk) (servers : List (String × ServerConfig)) (name : String)
        (cfg : ServerConfig),
      (servers.map Prod.fst).Nodup →
      (name, cfg) ∈ servers →
      truthyEnabled cfg.enabled = true →
      detect_server_type cfg = "sse" →
      truthyStr cfg.url = true →
      List.lookup name (scan_available disk servers).registry = some (sse_entry cfg)) := by
  constructor
  · intro disk save_fail st p u h1 h2 hst hu hne hs1 hs2
    unfold add_server
    simp [h1, h2, hst, hu, hne, hs1, hs2]
  · intro disk servers name cfg hnd hmem hen hdet hurl
    rw [lookup_scan_available hnd hmem]
    unfold entry_result
    simp [hen, hdet, hurl]

/-- Witness for claim C3: adding an sse server with url `not-a-url` fails
with the descriptive message and changes nothing. -/
theorem c3_witness :
    add_server disk_demo false add_state_empty add_params_bad =
      (AddResult.failure ("Invalid URL format: " ++ "not-a-url" ++ ". Must start with http:// or https://"),
        add_state_empty) :=
  c3_amended.1 disk_demo false add_state_empty add_params_bad "not-a-url"
    rfl rfl rfl rfl (by decide) (by decide) (by decide)

/-- Claim C4: transport-kind detection follows the claimed decision table:
an explicit `type` key wins unconditionally; otherwise non-empty command
and args give stdio; only a non-empty url with neither command nor args
gives sse; every other combination defaults to stdio. -/
theorem c4 (cfg : ServerConfig) : detect_server_type cfg = spec_detect_type cfg := by
  unfold detect_server_type spec_detect_type
  cases ht : cfg.type with
  | some t => rfl
  | none =>
    cases hc : truthyStr cfg.command <;>
    cases ha : truthyList cfg.args <;>
    cases hu : truthyStr cfg.url <;>
    simp [hc, ha, hu]

/-- Claim C5: a malformed persisted document is recovered by substituting
an empty configuration (no exception escapes: the loader is total by
construction, mirroring the caught `JSONDecodeError`), and reloading from
it yields an empty registry with ok status and count 0. -/
theorem c5 (disk : Disk) :
    load_mcp_config RawDoc.invalid = [] ∧
    reload_servers disk RawDoc.invalid = (⟨[], 0, 0, 0⟩, ⟨true, 0⟩) :=
  ⟨rfl, rfl⟩

/-- Claim C6: for every registered server whose invocation reaches the
tools-list discovery step, calling a tool name absent from the discovered
set returns (does not raise) the tool-not-found payload carrying the full
list of available names. -/
theorem c6 {α : Type} (sse_available : Bool) (registry : List (String × RegEntry))
    (name : String) (cfg : RegEntry) (beh : ServerBehavior α) (tool_name : String)
    (hreg : List.lookup name registry = some cfg)
    (hreach : discovery_reachable sse_available cfg = true)
    (habs : tool_name ∉ beh.tools) :
    call_server_tool sse_available registry name beh tool_name =
      Except.ok (err_obj (tool_not_found_msg tool_name beh.tools)) := by
  unfold call_server_tool
  rw [hreg]
  show call_tool_once sse_available cfg beh tool_name =
    Except.ok (err_obj (tool_not_found_msg tool_name beh.tools))
  unfold call_tool_once
  unfold discovery_reachable at hreach
  by_cases ht : cfg.type = "sse"
  · rw [if_pos ht] at hreach
    rw [if_pos ht]
    simp only [Bool.and_eq_true] at hreach
    obtain ⟨⟨hurl, hsse⟩, hhead⟩ := hreach
    simp [hurl, hsse, hhead, habs]
  · rw [if_neg ht] at hreach
    rw [if_neg ht]
    simp only [Bool.and_eq_true] at hreach
    simp [hreach.1, hreach.2, habs]

/-- Witness for claim C6: a registered stdio server exposing only `ping`,
invoked with the absent tool `missing`. -/
theorem c6_witness :
    call_server_tool true [("srv", reg_entry_demo)] "srv" beh_demo "missing" =
      Except.ok (err_obj (tool_not_found_msg "missing" ["ping"])) :=
  c6 true [("srv", reg_entry_demo)] "srv" reg_entry_demo beh_demo "missing"
    (by decide) (by decide) (by decide)

/-- Claim C7: a successful save writes the whole document via the temp file
and renames it over the original; a save failing at either step reports
false, removes the temp file and leaves the original document untouched. -/
theorem c7 (fs : FileState) (doc : List (String × ServerConfig)) (failAt : Option SaveStep) :
    save_mcp_config fs doc none = ({ config := some doc, temp := none }, true) ∧
    (failAt.isSome = true →
      (save_mcp_config fs doc failAt).1.config = fs.config ∧
      (save_mcp_config fs doc failAt).1.temp = none ∧
      (save_mcp_config fs doc failAt).2 = false) := by
  constructor
  · rfl
  · intro hf
    rcases failAt with _ | step
    · simp at hf
    · cases step <;>
        simp [save_mcp_config, remove_temp_file, write_temp_file]

/-- Witness for claim C7 at a concrete failing save. -/
theorem c7_witness :
    (save_mcp_config fs_demo doc_demo (some SaveStep.writeTemp)).1.config = fs_demo.config ∧
    (save_mcp_config fs_demo doc_demo (some SaveStep.writeTemp)).1.temp = none ∧
    (save_mcp_config fs_demo doc_demo (some SaveStep.writeTemp)).2 = false :=
  (c7 fs_demo doc_demo (some SaveStep.writeTemp)).2 rfl

/-- Claim C8: a rebuild never inserts a disabled entry (assuming the
document has no duplicate names, as a Python dict cannot); processing a
disabled entry only bumps the skipped counter, leaving the registry, the
found counter and the error counter unchanged; and an absent `enabled` key
behaves exactly like `enabled = true`. -/
theorem c8 :
    (∀ (disk : Disk) (servers : List (String × ServerConfig)) (name : String)
        (cfg : ServerConfig),
      (servers.map Prod.fst).Nodup →
      (name, cfg) ∈ servers →
      cfg.enabled = some false →
      List.lookup name (scan_available disk servers).registry = none) ∧
    (∀ (disk : Disk) (acc : ScanResult) (name : String) (cfg : ServerConfig),
      cfg.enabled = some false →
      process_entry disk acc (name, cfg) = { acc with skipped := acc.skipped + 1 }) ∧
    (∀ (disk : Disk) (acc : ScanResult) (name : String) (cfg : ServerConfig),
      process_entry disk acc (name, { cfg with enabled := none }) =
        process_entry disk acc (name, { cfg with enabled := some true })) := by
  refine ⟨?_, ?_, ?_⟩
  · intro disk servers name cfg hnd hmem hen
    rw [lookup_scan_available hnd hmem]
    unfold entry_result
    simp [truthyEnabled, hen]
  · intro disk acc name cfg hen
    exact process_entry_disabled hen
  · intro disk acc name cfg
    rfl

/-- Witness for claim C8 at a concrete disabled entry. -/
theorem c8_witness :
    List.lookup "off" (scan_available disk_demo [("off", cfg_disabled)]).registry = none :=
  c8.1 disk_demo [("off", cfg_disabled)] "off" cfg_disabled (by decide) (by decide) rfl

/-- Claim C9: the first args element is resolved as a path (absolute paths
pass through, relative paths resolve against the base directory), and a
stdio-detected entry whose resolved entry point does not exist on disk is
never inserted by a rebuild (document names assumed duplicate-free). -/
theorem c9 :
    (∀ p, pathIsAbsolute p = true → resolve_path p = p) ∧
    (∀ p, pathIsAbsolute p = false → resolve_path p = HERE ++ "/" ++ p) ∧
    (∀ (disk : Disk) (servers : List (String × ServerConfig)) (name : String)
        (cfg : ServerConfig) (a : String) (rest : List String),
      (servers.map Prod.fst).Nodup →
      (name, cfg) ∈ servers →
      detect_server_type cfg = "stdio" →
      cfg.args = some (a :: rest) →
      disk.pathExists (resolve_path a) = false →
      List.lookup name (scan_available disk servers).registry = none) := by
  refine ⟨?_, ?_, ?_⟩
  · intro p hp
    unfold resolve_path
    rw [if_pos hp]
  · intro p hp
    unfold resolve_path
    simp [hp]
  · intro disk servers name cfg a rest hnd hmem hdet hargs hpath
    rw [lookup_scan_available hnd hmem]
    unfold entry_result
    rw [hdet]
    have hargs2 : truthyList cfg.args = true := by rw [hargs]; rfl
    cases hen : truthyEnabled cfg.enabled <;>
    cases hc : truthyStr cfg.command <;>
    cases hgit : truthyStr cfg.url && !disk.gitTargetExists name && !disk.cloneInstallOk name <;>
    by_cases ha : a = "" <;>
      simp [hen, hc, hgit, hargs2, hargs, entry_point_of, ha, hpath]

/-- Witness for claim C9: an absolute path passing through, and a concrete
stdio entry rejected because nothing exists on `disk_demo`. -/
theorem c9_witness :
    resolve_path "/abs/x.py" = "/abs/x.py" ∧
    List.lookup "loc" (scan_available disk_demo [("loc", cfg_stdio_missing)]).registry = none :=
  ⟨c9.1 "/abs/x.py" (by decide),
    c9.2.2 disk_demo [("loc", cfg_stdio_missing)] "loc" cfg_stdio_missing "server.py" []
      (by decide) (by decide) (by decide) rfl rfl⟩

/-- Claim C10: with both requirements.txt and pyproject.toml present, only
the requirements invocation is issued and its outcome is returned, whatever
the pyproject outcome would have been; the editable install is issued only
when requirements.txt is absent; and every call issues at most one
installer invocation. -/
theorem c10 (req_outcome py_outcome other : PipOutcome) :
    (install_dependencies true true req_outcome py_outcome).2 = [PipInvocation.requirements] ∧
    PipInvocation.editable ∉ (install_dependencies true true req_outcome py_outcome).2 ∧
    install_dependencies true true req_outcome py_outcome =
      install_dependencies true true req_outcome other ∧
    (install_dependencies true true req_outcome py_outcome).1 = req_install_result req_outcome ∧
    (∀ has_requirements has_pyproject : Bool,
      ((install_dependencies has_requirements has_pyproject req_outcome py_outcome).2).length ≤ 1) ∧
    (install_dependencies false true req_outcome py_outcome).2 = [PipInvocation.editable] ∧
    (install_dependencies false true req_outcome py_outcome).1 = py_install_result py_outcome := by
  refine ⟨rfl, ?_, rfl, ?_, ?_, rfl, ?_⟩
  · show PipInvocation.editable ∉ [PipInvocation.requirements]
    decide
  · cases req_outcome <;> rfl
  · intro has_requirements has_pyproject
    cases has_requirements <;> cases has_pyproject <;>
      simp [install_dependencies]
  · cases py_outcome <;> rfl

end SuperMCP
